import Mathlib

/-!
Verification of `sentiment_analysis.py` (finalCapstone).

The program is a sequential CLI: it loads a review corpus from a CSV,
cleans/tokenizes review text, scores polarity or similarity, maps the score
to a textual bucket, and drives everything from a menu loop.

Shallow embedding conventions:
* float scores are modelled as rationals (the threshold comparisons are exact);
* console interaction is modelled by passing the list of future user inputs
  explicitly and returning the printed messages / outcome;
* the external NLP model (spaCy) is an opaque capability: a parameter
  producing a list of tokens, each carrying its lemma and the boolean
  classifications the code reads;
* Python code that can fall off the end of a function with a local unassigned
  (raising `UnboundLocalError`) is modelled with `Option`, `none` being the
  error.
-/

namespace SentimentAnalysis

/-! ## Bucketizer: `polarity_description` and `similarity_description` -/

/-- Embedding of `polarity_description` (sentiment_analysis.py:121-147).
The Python if/elif ladder assigns `description`; if no branch fires the
local is returned unassigned, which raises: that case is `none`. -/
def polarity_description (polarity_value : ℚ) : Option String :=
  if polarity_value ≥ 0.800 then some "Extremely positive"
  else if polarity_value ≥ 0.400 then some "Very positive"
  else if polarity_value ≥ 0.100 then some "Somewhat positive"
  else if polarity_value ≥ -0.100 then some "Neutral"
  else if polarity_value ≥ -0.400 then some "Somewhat negative"
  else if polarity_value ≥ -0.800 then some "Very negative"
  else if polarity_value ≥ -1.000 then some "Extremely negative"
  else none

/-- Embedding of `similarity_description` (sentiment_analysis.py:150-176),
same shape as `polarity_description` with different labels. -/
def similarity_description (similarity_value : ℚ) : Option String :=
  if similarity_value ≥ 0.800 then some "Extremely similar"
  else if similarity_value ≥ 0.400 then some "Very similar"
  else if similarity_value ≥ 0.100 then some "Somewhat similar"
  else if similarity_value ≥ -0.100 then some "Neutral"
  else if similarity_value ≥ -0.400 then some "Somewhat dissimilar"
  else if similarity_value ≥ -0.800 then some "Very dissimilar"
  else if similarity_value ≥ -1.000 then some "Extremely dissimilar"
  else none

/-- The spec's threshold ladder, written from the spec's words: label by the
first threshold the value reaches, else the lowest bucket.  Total on the
documented domain by construction; compared against `polarity_description`. -/
def polarity_ladder_spec (v : ℚ) : String :=
  if v ≥ 0.8 then "Extremely positive"
  else if v ≥ 0.4 then "Very positive"
  else if v ≥ 0.1 then "Somewhat positive"
  else if v ≥ -0.1 then "Neutral"
  else if v ≥ -0.4 then "Somewhat negative"
  else if v ≥ -0.8 then "Very negative"
  else "Extremely negative"

/-- The label renaming the spec describes for the similarity bucketizer:
the word `positive` becomes `similar`, `negative` becomes `dissimilar`,
and `Neutral` is unchanged; any other string is untouched. -/
def rename_label (s : String) : String :=
  if s = "Extremely positive" then "Extremely similar"
  else if s = "Very positive" then "Very similar"
  else if s = "Somewhat positive" then "Somewhat similar"
  else if s = "Somewhat negative" then "Somewhat dissimilar"
  else if s = "Very negative" then "Very dissimilar"
  else if s = "Extremely negative" then "Extremely dissimilar"
  else s

/-- C1: on the documented domain [-1, 1], `polarity_description` returns
exactly the label of the spec's threshold ladder (so it is total and
deterministic there), and each boundary value resolves to the higher
bucket. -/
theorem polarity_description_matches_ladder :
    (∀ v : ℚ, -1 ≤ v → v ≤ 1 →
      polarity_description v = some (polarity_ladder_spec v)) ∧
    polarity_description 0.8 = some "Extremely positive" ∧
    polarity_description 0.4 = some "Very positive" ∧
    polarity_description 0.1 = some "Somewhat positive" ∧
    polarity_description (-0.1) = some "Neutral" ∧
    polarity_description (-0.4) = some "Somewhat negative" ∧
    polarity_description (-0.8) = some "Very negative" := by
  refine ⟨?_, ?_, ?_, ?_, ?_, ?_, ?_⟩
  · intro v hlo hhi
    unfold polarity_description polarity_ladder_spec
    norm_num
    split_ifs <;> rfl
  all_goals norm_num [polarity_description]

/-- Witness for C1: the ladder theorem applied at the concrete score 1/2. -/
theorem polarity_description_matches_ladder_witness :
    polarity_description (1/2 : ℚ) = some (polarity_ladder_spec (1/2 : ℚ)) :=
  polarity_description_matches_ladder.1 (1/2) (by norm_num) (by norm_num)

/-- C6: `similarity_description` picks the same bucket of the same threshold
ladder as `polarity_description`, differing only by the label renaming
(`positive` to `similar`, `negative` to `dissimilar`, `Neutral` unchanged);
this holds at every score, the out-of-domain failure included. -/
theorem similarity_description_is_renamed_polarity :
    ∀ v : ℚ, similarity_description v =
      Option.map rename_label (polarity_description v) := by
  intro v
  unfold similarity_description polarity_description
  split_ifs <;> simp [rename_label]

/-- C10: both bucketizers, embedded as `Option`-returning functions, return
`none` exactly when the score is strictly below -1.0: below the documented
range no branch of the ladder assigns the description. -/
theorem description_none_iff_below_domain :
    ∀ v : ℚ, (polarity_description v = none ↔ v < -1) ∧
      (similarity_description v = none ↔ v < -1) := by
  intro v
  constructor
  · unfold polarity_description
    split_ifs with h1 h2 h3 h4 h5 h6 h7 <;> simp <;> linarith
  · unfold similarity_description
    split_ifs with h1 h2 h3 h4 h5 h6 h7 <;> simp <;> linarith

/-! ## Text cleaner: `filter_and_tokenize` -/

/-- A spaCy token as the code reads it: its lemma and the three boolean
classifications tested by the list comprehension.  The tokenizer itself
(`nlp_sm`) is an external capability, passed as a parameter. -/
structure Token where
  lemma_ : String
  is_stop : Bool
  is_punct : Bool
  is_space : Bool
deriving DecidableEq, Repr

/-- The list comprehension of sentiment_analysis.py:104-108, desugared the
way Python runs it: for each token, the two `if` clauses guard in sequence
and the kept token contributes its lemma. -/
def listcompTokens : List Token → List String
  | [] => []
  | t :: rest =>
    if !t.is_stop then
      if !t.is_punct || t.is_space then t.lemma_ :: listcompTokens rest
      else listcompTokens rest
    else listcompTokens rest

/-- Python `sep.join(xs)`: the elements interleaved with the separator. -/
def joinSep (sep : String) : List String → String
  | [] => ""
  | [s] => s
  | s :: rest => s ++ (sep ++ joinSep sep rest)

/-- Python `str.lower()`, character by character. -/
def lowerStr (s : String) : String := String.mk (s.data.map Char.toLower)

/-- Embedding of `filter_and_tokenize` (sentiment_analysis.py:88-111):
tokenize via the external model, keep lemmas through the comprehension,
join with spaces and lower-case the result. -/
def filter_and_tokenize (nlp_sm : String → List Token) (text : String) : String :=
  lowerStr (joinSep " " (listcompTokens (nlp_sm text)))

/-- The spec's keep-condition, written from the spec's words: a token is
kept when it is not a stop-word and not punctuation, where a punctuation
token is kept only if it is also whitespace. -/
def kept_token_spec (t : Token) : Bool :=
  !t.is_stop && (!t.is_punct || t.is_space)

/-- The comprehension keeps exactly the lemmas of the tokens satisfying the
spec's keep-condition, in order. -/
theorem listcompTokens_eq_filter_map (ts : List Token) :
    listcompTokens ts = (ts.filter kept_token_spec).map Token.lemma_ := by
  induction ts with
  | nil => rfl
  | cons t rest ih =>
    by_cases hs : t.is_stop <;> by_cases hp : t.is_punct <;>
      by_cases hw : t.is_space <;>
      simp [listcompTokens, kept_token_spec, hs, hp, hw, ih, List.filter]

/-- C4: `filter_and_tokenize` returns the lower-cased, space-joined sequence
of the lemmas of exactly those input tokens that are not stop-words and not
punctuation (punctuation surviving only when also whitespace), for every
tokenizer and every input string — and, being a pure function of its
arguments, it has no side effect on the corpus. -/
theorem filter_and_tokenize_spec :
    ∀ (nlp_sm : String → List Token) (text : String),
      filter_and_tokenize nlp_sm text =
        lowerStr (joinSep " "
          (((nlp_sm text).filter kept_token_spec).map Token.lemma_)) := by
  intro nlp_sm text
  unfold filter_and_tokenize
  rw [listcompTokens_eq_filter_map]

/-- `lowerStr` distributes over string append. -/
theorem lowerStr_append (a b : String) :
    lowerStr (a ++ b) = lowerStr a ++ lowerStr b := by
  simp [lowerStr, String.ext_iff]

/-- Lower-casing a space-join of already-lower-case strings is the identity. -/
theorem lowerStr_joinSep_space (l : List String)
    (h : ∀ s ∈ l, lowerStr s = s) : lowerStr (joinSep " " l) = joinSep " " l := by
  induction l with
  | nil => rfl
  | cons s rest ih =>
    cases rest with
    | nil => simpa [joinSep] using h s (by simp)
    | cons s2 rest2 =>
      have hs : lowerStr s = s := h s (by simp)
      have hrest : lowerStr (joinSep " " (s2 :: rest2)) = joinSep " " (s2 :: rest2) := by
        refine ih ?_
        intro x hx
        exact h x (by simp [hx])
      have hsp : lowerStr " " = " " := rfl
      simp only [joinSep]
      rw [lowerStr_append, lowerStr_append, hs, hsp, hrest]

/-- C8: `filter_and_tokenize` is idempotent on already-cleaned text: if the
tokenizer reads back `s` as tokens none of which is a stop-word or
punctuation, each with an already-lower-case lemma, and `s` is the
space-join of those lemmas, then the function returns `s` unchanged. -/
theorem filter_and_tokenize_idempotent
    (nlp_sm : String → List Token) (s : String) (ts : List Token)
    (htok : nlp_sm s = ts)
    (hstop : ∀ t ∈ ts, t.is_stop = false)
    (hpunct : ∀ t ∈ ts, t.is_punct = false)
    (hlower : ∀ t ∈ ts, lowerStr t.lemma_ = t.lemma_)
    (hjoin : s = joinSep " " (ts.map Token.lemma_)) :
    filter_and_tokenize nlp_sm s = s := by
  have hkeep : ts.filter kept_token_spec = ts := by
    refine List.filter_eq_self.mpr ?_
    intro t ht
    simp [kept_token_spec, hstop t ht, hpunct t ht]
  have hlow : ∀ x ∈ ts.map Token.lemma_, lowerStr x = x := by
    intro x hx
    rcases List.mem_map.mp hx with ⟨t, ht, rfl⟩
    exact hlower t ht
  unfold filter_and_tokenize
  rw [htok, listcompTokens_eq_filter_map, hkeep, ← hjoin, hjoin,
    lowerStr_joinSep_space _ hlow]

/-- Witness for C8: a concrete tokenizer mapping `"good product"` to its two
clean tokens, on which the cleaner is the identity. -/
theorem filter_and_tokenize_idempotent_witness :
    filter_and_tokenize
      (fun _ => [⟨"good", false, false, false⟩, ⟨"product", false, false, false⟩])
      "good product" = "good product" := by
  refine filter_and_tokenize_idempotent _ _
    [⟨"good", false, false, false⟩, ⟨"product", false, false, false⟩]
    rfl ?_ ?_ ?_ ?_
  · intro t ht
    simp at ht
    rcases ht with h | h <;> simp [h]
  · intro t ht
    simp at ht
    rcases ht with h | h <;> simp [h]
  · intro t ht
    simp at ht
    rcases ht with h | h <;> subst h <;> rfl
  · rfl

/-! ## Data loader: `df`, `clean_data`, `reviews_data` -/

/-- Embedding of `pd.read_csv` (sentiment_analysis.py:36) restricted to the
one column the program touches: each file row contributes its original
position together with its possibly-missing `reviews.text` cell. -/
def read_csv (cells : List (Option String)) : List (ℕ × Option String) :=
  cells.enum

/-- Embedding of `df.dropna(subset=[...])` (sentiment_analysis.py:39):
rows whose `reviews.text` cell is missing are dropped; surviving rows keep
their original labels, as pandas does. -/
def clean_data (cells : List (Option String)) : List (ℕ × Option String) :=
  (read_csv cells).filter (fun p => p.2.isSome)

/-- Embedding of `clean_data[...]` column selection
(sentiment_analysis.py:42): the series of review texts, still carrying the
original row labels. -/
def reviews_data (cells : List (Option String)) : List (ℕ × String) :=
  (clean_data cells).filterMap (fun p => Option.map (fun t => (p.1, t)) p.2)

/-- The value sequence of the loaded series, positions 0..N-1. -/
def corpus (cells : List (Option String)) : List String :=
  (reviews_data cells).map Prod.snd

/-- The corpus as the spec words it: the review-text values of exactly the
rows whose review-text field is present, in original file order. -/
def corpus_spec (cells : List (Option String)) : List String :=
  cells.filterMap id

/-- The loader pipeline, started from any first label, produces the present
cell values in order. -/
theorem corpus_enumFrom (n : ℕ) (cells : List (Option String)) :
    ((((cells.enumFrom n).filter (fun p => p.2.isSome)).filterMap
        (fun p => Option.map (fun t => (p.1, t)) p.2)).map Prod.snd)
      = cells.filterMap id := by
  induction cells generalizing n with
  | nil => rfl
  | cons c rest ih =>
    cases c with
    | none => simpa [List.enumFrom, List.filter, List.filterMap] using ih (n + 1)
    | some t => simpa [List.enumFrom, List.filter, List.filterMap] using ih (n + 1)

/-- C3: after loading, the corpus is exactly the sequence of review-text
values of the rows whose review-text field is present, in original file
order (rows with a missing field excluded), and every position `i` with
`0 ≤ i < N` holds a review. -/
theorem corpus_eq_present_texts :
    ∀ cells : List (Option String),
      corpus cells = corpus_spec cells ∧
      ∀ i : ℕ, i < (corpus cells).length → ∃ s, (corpus cells)[i]? = some s := by
  intro cells
  constructor
  · unfold corpus reviews_data clean_data read_csv corpus_spec
    simpa [List.enum] using corpus_enumFrom 0 cells
  · intro i hi
    exact ⟨(corpus cells)[i], List.getElem?_eq_getElem hi⟩

/-- Witness for C3: a three-row file with one missing cell loads as the two
present texts, and position 1 is occupied. -/
theorem corpus_eq_present_texts_witness :
    corpus [some "r0", none, some "r2"] = corpus_spec [some "r0", none, some "r2"] ∧
    (∃ s, (corpus [some "r0", none, some "r2"])[1]? = some s) :=
  ⟨(corpus_eq_present_texts [some "r0", none, some "r2"]).1,
    (corpus_eq_present_texts [some "r0", none, some "r2"]).2 1 (by decide)⟩

/-! ## Input validation: `get_int` -/

/-- The message printed by `get_int` on a parse failure
(sentiment_analysis.py:63). -/
def int_error_msg : String := "<<< Please enter an integer >>>"

/-- Embedding of `get_int` (sentiment_analysis.py:46-63).  The console is
the list of future input lines; `parse` is Python `int(...)`, `none`
meaning `ValueError`.  The result is the printed messages together with
the returned integer, `none` when the input list runs out while the loop
is still asking. -/
def get_int (parse : String → Option ℤ) : List String → List String × Option ℤ
  | [] => ([], none)
  | s :: rest =>
    match parse s with
    | some n => ([], some n)
    | none =>
      let r := get_int parse rest
      (int_error_msg :: r.1, r.2)

/-- Value of a nonempty all-digit character list, `none` otherwise. -/
def digitsVal : List Char → Option ℕ
  | [] => none
  | c :: cs =>
    if c.isDigit then
      cs.foldl
        (fun acc d => acc.bind
          (fun n => if d.isDigit then some (10 * n + (d.toNat - 48)) else none))
        (some (c.toNat - 48))
    else none

/-- Model of Python `int(str)` on trimmed input: an optional sign followed by
at least one digit; anything else is a `ValueError`, i.e. `none`. -/
def pyIntParse (s : String) : Option ℤ :=
  match s.data with
  | '-' :: cs => (digitsVal cs).map (fun n => -(n : ℤ))
  | '+' :: cs => (digitsVal cs).map (fun n => (n : ℤ))
  | cs => (digitsVal cs).map (fun n => (n : ℤ))

/-- C5: `get_int` returns the integer parsed from the first input that
parses, printing one re-prompt message per preceding failure; and when no
input ever parses it keeps printing the message and never returns. -/
theorem get_int_first_valid :
    (∀ (parse : String → Option ℤ) (pre : List String) (s : String) (n : ℤ)
        (rest : List String),
      (∀ x ∈ pre, parse x = none) → parse s = some n →
      get_int parse (pre ++ s :: rest) =
        (List.replicate pre.length int_error_msg, some n)) ∧
    (∀ (parse : String → Option ℤ) (inputs : List String),
      (∀ x ∈ inputs, parse x = none) →
      get_int parse inputs =
        (List.replicate inputs.length int_error_msg, none)) := by
  constructor
  · intro parse pre s n rest hpre hs
    induction pre with
    | nil => simp [get_int, hs]
    | cons p ps ih =>
      have hp : parse p = none := hpre p (by simp)
      have hrec := ih (fun x hx => hpre x (by simp [hx]))
      simp [get_int, hp, hrec, List.replicate]
  · intro parse inputs hall
    induction inputs with
    | nil => rfl
    | cons p ps ih =>
      have hp : parse p = none := hall p (by simp)
      have hrec := ih (fun x hx => hall x (by simp [hx]))
      simp [get_int, hp, hrec, List.replicate]

/-- Witness for C5: with Python-style parsing, input `"abc"` then `"2"`
prints one message and returns 2. -/
theorem get_int_first_valid_witness :
    get_int pyIntParse (["abc"] ++ "2" :: []) =
      (List.replicate (["abc"] : List String).length int_error_msg, some 2) :=
  get_int_first_valid.1 pyIntParse ["abc"] "2" 2 []
    (by intro x hx; simp at hx; subst hx; decide) (by decide)

/-! ## Review lookup: `find_review` -/

/-- The message printed by `find_review` when it rejects an index
(sentiment_analysis.py:85). -/
def max_index_msg (n : ℕ) : String :=
  "<<< Max index: " ++ toString n ++ " >>>"

/-- Label-based lookup in the pandas series: `reviews_data[index]` finds the
row whose label equals the index; a missing label raises `KeyError`,
modelled as `none`. -/
def seriesGet (series : List (ℕ × String)) (i : ℤ) : Option String :=
  (series.find? (fun p => (p.1 : ℤ) == i)).map Prod.snd

/-- How a `find_review` round ends. -/
inductive FindReviewOutcome
  | review (s : String)
  | lookupError
  | waiting
deriving DecidableEq, Repr

/-- Embedding of `find_review` (sentiment_analysis.py:66-85): read integers
until one passes the bounds check `index <= len(reviews_data)`; an accepted
index is looked up by label (`lookupError` when that raises); a rejected
index prints the max-index message and re-prompts; `waiting` means the
modelled input ran out while still re-prompting. -/
def find_review (series : List (ℕ × String)) :
    List ℤ → List String × FindReviewOutcome
  | [] => ([], FindReviewOutcome.waiting)
  | i :: rest =>
    if i ≤ (series.length : ℤ) then
      match seriesGet series i with
      | some s => ([], FindReviewOutcome.review s)
      | none => ([], FindReviewOutcome.lookupError)
    else
      let r := find_review series rest
      (max_index_msg series.length :: r.1, r.2)

/-- C2 (code bug): on a five-review corpus, the entered index 5 (= N) and
the entered index -1 both pass the bounds check `index <= len(reviews_data)`
and reach the label lookup, which fails — no max-index message, no
re-prompt, contrary to the documented contract of accepting exactly
[0, N-1]; in-range 2 is returned and the over-range 6 is the only shape of
input that is re-prompted. -/
theorem find_review_bounds_check_off_by_one :
    (reviews_data [some "r0", some "r1", some "r2", some "r3", some "r4"]).length = 5 ∧
    find_review (reviews_data [some "r0", some "r1", some "r2", some "r3", some "r4"])
      [(5 : ℤ)] = ([], FindReviewOutcome.lookupError) ∧
    find_review (reviews_data [some "r0", some "r1", some "r2", some "r3", some "r4"])
      [(-1 : ℤ)] = ([], FindReviewOutcome.lookupError) ∧
    find_review (reviews_data [some "r0", some "r1", some "r2", some "r3", some "r4"])
      [(2 : ℤ)] = ([], FindReviewOutcome.review "r2") ∧
    find_review (reviews_data [some "r0", some "r1", some "r2", some "r3", some "r4"])
      [(6 : ℤ), (2 : ℤ)] = ([max_index_msg 5], FindReviewOutcome.review "r2") := by
  decide

/-! ## Flow loops: `display_review_polarity`, `display_reviews_similarity` -/

/-- The continue-prompt test of both flows (sentiment_analysis.py:295,320):
`user_input.lower() == 'stop'`. -/
def stop_requested (s : String) : Bool := lowerStr s == "stop"

/-- Embedding of `display_review_polarity` (sentiment_analysis.py:274-296)
over the list of answers to its continue prompt (the polarity round itself
is abstracted: it consumes no continue answers).  `some k` means the flow
ran `k` rounds and broke back to the main menu; `none` means the modelled
input ran out with the flow still looping. -/
def display_review_polarity : List String → Option ℕ
  | [] => none
  | s :: rest =>
    if stop_requested s then some 1
    else (display_review_polarity rest).map (fun k => k + 1)

/-- Embedding of `display_reviews_similarity`
(sentiment_analysis.py:299-321), the same loop shape as the polarity flow. -/
def display_reviews_similarity : List String → Option ℕ
  | [] => none
  | s :: rest =>
    if stop_requested s then some 1
    else (display_reviews_similarity rest).map (fun k => k + 1)

/-- A flow never reports zero completed rounds. -/
theorem display_review_polarity_ne_zero (l : List String) :
    display_review_polarity l ≠ some 0 := by
  cases l with
  | nil => simp [display_review_polarity]
  | cons s rest =>
    unfold display_review_polarity
    split_ifs <;> simp

/-- A similarity flow never reports zero completed rounds. -/
theorem display_reviews_similarity_ne_zero (l : List String) :
    display_reviews_similarity l ≠ some 0 := by
  cases l with
  | nil => simp [display_reviews_similarity]
  | cons s rest =>
    unfold display_reviews_similarity
    split_ifs <;> simp

/-- C9: in both flows the continue prompt exits back to the main menu after
the first round exactly when the entered string equals `"stop"`
case-insensitively; `"STOP"` and `"Stop"` exit, and the empty string runs
the flow for another round. -/
theorem continue_prompt_stop_case_insensitive :
    (∀ (s : String) (rest : List String),
      display_review_polarity (s :: rest) = some 1 ↔ lowerStr s = lowerStr "stop") ∧
    (∀ (s : String) (rest : List String),
      display_reviews_similarity (s :: rest) = some 1 ↔ lowerStr s = lowerStr "stop") ∧
    display_review_polarity ["STOP"] = some 1 ∧
    display_review_polarity ["Stop"] = some 1 ∧
    display_reviews_similarity ["STOP"] = some 1 ∧
    display_reviews_similarity ["Stop"] = some 1 ∧
    display_review_polarity ["", "stop"] = some 2 ∧
    display_reviews_similarity ["", "stop"] = some 2 := by
  refine ⟨?_, ?_, by decide, by decide, by decide, by decide, by decide, by decide⟩
  · intro s rest
    have hstop : lowerStr "stop" = "stop" := rfl
    rw [hstop]
    by_cases h : lowerStr s = "stop"
    · simp [display_review_polarity, stop_requested, h]
    · have hz := display_review_polarity_ne_zero rest
      have hb : stop_requested s = false := by simp [stop_requested, h]
      simp only [display_review_polarity, hb, Bool.false_eq_true, if_false]
      constructor
      · intro hmap
        rcases Option.map_eq_some'.mp hmap with ⟨k, hk, hk1⟩
        have hk0 : k = 0 := by omega
        exact absurd (hk0 ▸ hk) hz
      · intro hs
        exact absurd hs h
  · intro s rest
    have hstop : lowerStr "stop" = "stop" := rfl
    rw [hstop]
    by_cases h : lowerStr s = "stop"
    · simp [display_reviews_similarity, stop_requested, h]
    · have hz := display_reviews_similarity_ne_zero rest
      have hb : stop_requested s = false := by simp [stop_requested, h]
      simp only [display_reviews_similarity, hb, Bool.false_eq_true, if_false]
      constructor
      · intro hmap
        rcases Option.map_eq_some'.mp hmap with ⟨k, hk, hk1⟩
        have hk0 : k = 0 := by omega
        exact absurd (hk0 ▸ hk) hz
      · intro hs
        exact absurd hs h

/-! ## Main menu loop: `main` -/

/-- The observable steps of the main loop. -/
inductive MenuEvent
  | menu_prompt
  | polarity_flow
  | similarity_flow
  | goodbye
  | not_available
deriving DecidableEq, Repr

/-- Embedding of `main` (sentiment_analysis.py:324-355) over the list of
menu choices returned by `get_int`: each iteration shows the options screen
and reads a choice; 1 and 2 run their flow and loop, 3 prints the goodbye
message and ends the loop, anything else prints the error message and
loops.  An exhausted input list leaves the loop showing the menu and
waiting. -/
def main_loop : List ℤ → List MenuEvent
  | [] => [MenuEvent.menu_prompt]
  | c :: rest =>
    if c = 1 then MenuEvent.menu_prompt :: MenuEvent.polarity_flow :: main_loop rest
    else if c = 2 then MenuEvent.menu_prompt :: MenuEvent.similarity_flow :: main_loop rest
    else if c = 3 then [MenuEvent.menu_prompt, MenuEvent.goodbye]
    else MenuEvent.menu_prompt :: MenuEvent.not_available :: main_loop rest

/-- C7: choosing 3 at the main menu ends the program after the goodbye
message — no further prompt follows and later input is never read — while
any integer other than 1, 2, 3 prints the not-available message and returns
to the menu prompt with the rest of the input. -/
theorem main_loop_exit_and_invalid_choice :
    (∀ rest : List ℤ, main_loop (3 :: rest) = [MenuEvent.menu_prompt, MenuEvent.goodbye]) ∧
    (∀ (c : ℤ) (rest : List ℤ), c ≠ 1 → c ≠ 2 → c ≠ 3 →
      main_loop (c :: rest) =
        MenuEvent.menu_prompt :: MenuEvent.not_available :: main_loop rest) := by
  constructor
  · intro rest
    simp [main_loop]
  · intro c rest h1 h2 h3
    simp [main_loop, h1, h2, h3]

/-- Witness for C7: the invalid choice 5 shows the error and returns to the
menu. -/
theorem main_loop_exit_and_invalid_choice_witness :
    main_loop [(5 : ℤ)] =
      MenuEvent.menu_prompt :: MenuEvent.not_available :: main_loop [] :=
  main_loop_exit_and_invalid_choice.2 5 [] (by decide) (by decide) (by decide)

end SentimentAnalysis
